import Mathlib

/-!
Verification of the board-game catalog maintenance scripts
(`scripts/add_game.py`, `scripts/manage_games.py`, `scripts/v1-add_game`).

The scripts are shallowly embedded: the file system is a map from path
strings to optional byte lists, the external image tool (ImageMagick) is an
abstract environment providing probe results and transform outcomes, and the
catalog is a list of game records with optional string fields.
-/

namespace BG

/-- File contents as a list of bytes. -/
abbrev Bytes := List Nat

/-- A file system: each path either holds contents or is absent. -/
abbrev FS := String → Option Bytes

/-- Outcome of the external `magick` transform invocation
(`subprocess.run` in `ImageOptimizer.optimize_image`):
either it raises (e.g. `TimeoutExpired`, caught by the `except` clause) or it
exits with a code; in both cases it may or may not have written the output
file before finishing. -/
inductive TransformOutcome where
  | raises (out : Option Bytes)
  | exits (code : Int) (out : Option Bytes)

/-- True when the transform invocation fails in one of the ways the code
checks for: it raises (timeouts raise `TimeoutExpired`) or exits non-zero. -/
def TransformOutcome.failedB : TransformOutcome → Bool
  | .raises _ => true
  | .exits code _ => code != 0

/-- The external environment of `ImageOptimizer`: whether
`ensure_imagemagick` succeeds, whether the `magick` executable is absent
(so that `subprocess.run` raises `FileNotFoundError`; a realizable
environment with `binaryMissing = true` also has `magickOk = false`, since
`ensure_imagemagick` catches that exception at line 40), what
`magick identify` reports for a path (`none` models the CAUGHT probe
failures — timeout, non-zero exit, unparsable output — after which the code
falls back to width = height = 0), the outcome of the transform invocation,
and whether the backup copy operations (`mkdir`, `shutil.copy2`) raise. -/
structure Env where
  magickOk : Bool
  binaryMissing : Bool
  probe : String → Option (Nat × Nat)
  transform : TransformOutcome
  backupOk : Bool

/-- `ImageOptimizer.settings` (add_game.py lines 25-32). -/
structure OptimizeSettings where
  width : Nat
  height : Nat
  quality : Nat
  max_file_size : Nat
  preserve_original : Bool
  auto_optimize : Bool

/-- The fixed settings: 400x600, quality 85, 200 KiB. -/
def optimizer_settings : OptimizeSettings :=
  { width := 400, height := 600, quality := 85,
    max_file_size := 200 * 1024, preserve_original := true,
    auto_optimize := true }

/-- Result of `ImageOptimizer.get_image_info`. -/
structure ImageInfo where
  width : Nat
  height : Nat
  file_size : Nat

/-- Python exceptions the probe path can raise. -/
inductive PyExc where
  | fileNotFoundError
deriving DecidableEq

/-- `ImageOptimizer.get_image_info` (add_game.py lines 51-74), restricted to
environments where the magick binary is present: on probe success, probed
width/height and the on-disk byte size; on a caught probe failure
(`TimeoutExpired`, `ValueError`, `IndexError`, or a non-zero exit) the
fallback width = height = 0 with the byte size. The fallible behavior,
including the uncaught `FileNotFoundError` when the binary is absent, is
`get_image_info_run`; `needs_optimization_run_agrees` scopes this total
version to the binary-present region. -/
def get_image_info (env : Env) (b : Bytes) (p : String) : ImageInfo :=
  match env.probe p with
  | some wh => { width := wh.1, height := wh.2, file_size := b.length }
  | none => { width := 0, height := 0, file_size := b.length }

/-- `ImageOptimizer.get_image_info`, fallible version: the `except` clause
at add_game.py line 65 catches only `TimeoutExpired`, `ValueError` and
`IndexError`, so when the magick binary is absent the `FileNotFoundError`
raised by `subprocess.run` propagates uncaught to the caller instead of
reaching the size-only fallback. -/
def get_image_info_run (env : Env) (b : Bytes) (p : String) : Except PyExc ImageInfo :=
  if env.binaryMissing then .error .fileNotFoundError
  else match env.probe p with
    | some wh => .ok { width := wh.1, height := wh.2, file_size := b.length }
    | none => .ok { width := 0, height := 0, file_size := b.length }

/-- `ImageOptimizer.needs_optimization` (add_game.py lines 76-93),
restricted to environments where the magick binary is present (the fallible
behavior with the binary absent is `needs_optimization_run`; inside
`optimize_image` the call follows a successful `ensure_imagemagick`, which
implies the binary is present). The Python comparisons are against
`self.settings['width'] * 1.2` and `self.settings['height'] * 1.2`; as IEEE
doubles `400 * 1.2 = 480.0` and `600 * 1.2 = 720.0` exactly, and the probed
dimensions are integers, so the comparisons are rendered as
`width * 5 > 400 * 6` and `height * 5 > 600 * 6`. -/
def needs_optimization (env : Env) (fs : FS) (p : String) : Bool :=
  match fs p with
  | none => false
  | some b =>
    let info := get_image_info env b p
    if info.file_size > optimizer_settings.max_file_size then true
    else if info.width > 0 ∧ info.height > 0 ∧
        (info.width * 5 > optimizer_settings.width * 6 ∨
         info.height * 5 > optimizer_settings.height * 6) then true
    else false

/-- `ImageOptimizer.needs_optimization`, fallible version: for an existing
file it consults `get_image_info_run`, so when the magick binary is absent
the uncaught `FileNotFoundError` propagates to the caller (reachable from
`optimize_all_images`, the `--check` path, and `preview_with_image_status`,
none of which guard the call with `ensure_imagemagick`); for an absent path
it returns false before any probe. -/
def needs_optimization_run (env : Env) (fs : FS) (p : String) : Except PyExc Bool :=
  match fs p with
  | none => .ok false
  | some b =>
    match get_image_info_run env b p with
    | .error e => .error e
    | .ok info =>
      .ok (if info.file_size > optimizer_settings.max_file_size then true
           else if info.width > 0 ∧ info.height > 0 ∧
               (info.width * 5 > optimizer_settings.width * 6 ∨
                info.height * 5 > optimizer_settings.height * 6) then true
           else false)

/-- Last path component as characters, resetting at each separator
(model of `pathlib.Path(...).name`). -/
def lastComp : List Char → List Char → List Char
  | [], cur => cur
  | c :: rest, cur => if c = '/' then lastComp rest [] else lastComp rest (cur ++ [c])

/-- `Path(p).name`: the final path component. -/
def baseName (p : String) : String := String.mk (lastComp p.data [])

/-- The directory part of a path: everything up to the final component. -/
def dirPart (p : String) : String :=
  String.mk (p.data.take (p.data.length - (baseName p).data.length))

/-- `Path(name).stem`: the name without its extension. pathlib takes the
last dot at an index i with 0 < i < len - 1; if none, the stem is the whole
name. -/
def stemOf (name : String) : String :=
  let cs := name.data
  match (cs.enum.filter (fun e => e.2 == '.')).getLast? with
  | some iv =>
      if 0 < iv.1 ∧ iv.1 + 1 < cs.length then String.mk (cs.take iv.1) else name
  | none => name

/-- `Path.with_suffix`: replace the final component extension. -/
def with_suffix (p : String) (suf : String) : String :=
  dirPart p ++ stemOf (baseName p) ++ suf

/-- The fixed catalog path `docs/_data/games.yml`. -/
def games_yml_path : String := "docs/_data/games.yml"

/-- The backup path computed by `save_games_data`:
`games_yml_path.with_suffix(".yml.backup." + timestamp)`. -/
def yml_backup_path (ts : String) : String :=
  with_suffix games_yml_path (".yml.backup." ++ ts)

/-- The image backup directory `docs/assets/images/backup`
(`ImageOptimizer.backup_dir`). -/
def image_backup_dir : String := "docs/assets/images/backup"

/-- The destination of an image backup: `backup_dir / Path(p).name`. -/
def backupFilePath (p : String) : String := image_backup_dir ++ "/" ++ baseName p

/-- The temporary output path of the transform: `str(image_path) + ".temp"`. -/
def tempPath (p : String) : String := p ++ ".temp"

/-- Write optional subprocess output to a path (no output: no change). -/
def writeOpt (fs : FS) (q : String) (out : Option Bytes) : FS :=
  match out with
  | some b => fun r => if r = q then some b else fs r
  | none => fs

/-- `os.remove` / removing a path from the file system. -/
def removeFile (fs : FS) (q : String) : FS :=
  fun r => if r = q then none else fs r

/-- `os.replace(src, dst)`: dst takes the contents of src, src is removed. -/
def replaceFile (fs : FS) (src dst : String) : FS :=
  fun r => if r = dst then fs src else if r = src then none else fs r

/-- `ImageOptimizer.create_backup` (add_game.py lines 95-112):
`preserve_original` is true in the fixed settings, so the code makes the
backup directory, and copies the file to `backup_dir / name` unless a backup
already exists there; any raised exception yields `False`. `env.backupOk`
models whether `mkdir`/`copy2` raise for environmental reasons; `copy2` on a
missing source raises `FileNotFoundError`. -/
def create_backup (env : Env) (fs : FS) (p : String) : Bool × FS :=
  if env.backupOk then
    match fs (backupFilePath p) with
    | some _ => (true, fs)
    | none =>
      match fs p with
      | some b => (true, fun q => if q = backupFilePath p then some b else fs q)
      | none => (false, fs)
  else (false, fs)

/-- `ImageOptimizer.optimize_image` (add_game.py lines 114-178):
fail if ImageMagick is unavailable; fail if the file does not exist; succeed
as a no-op if `needs_optimization` is false; create a backup (failure
aborts); run the transform to `p + ".temp"`; on exit code 0 with the temp
file present, replace the original with the temp file and succeed; otherwise
(non-zero exit, missing output, or a raised exception such as a timeout)
remove the temp file if present and fail. -/
def optimize_image (env : Env) (fs : FS) (p : String) : Bool × FS :=
  if env.magickOk = false then (false, fs) else
  match fs p with
  | none => (false, fs)
  | some _ =>
    if needs_optimization env fs p = false then (true, fs) else
    if (create_backup env fs p).1 = false then (false, (create_backup env fs p).2)
    else
      let fs1 := (create_backup env fs p).2
      match env.transform with
      | .raises out =>
          (false, removeFile (writeOpt fs1 (tempPath p) out) (tempPath p))
      | .exits code out =>
          let fs2 := writeOpt fs1 (tempPath p) out
          if code = 0 ∧ (fs2 (tempPath p)).isSome then
            (true, replaceFile fs2 (tempPath p) p)
          else (false, removeFile fs2 (tempPath p))

/-- A game record: every field the scripts touch, each optional because the
YAML dictionaries are accessed with `.get`. -/
structure Game where
  id : Option String
  title : Option String
  players : Option String
  time : Option String
  age : Option String
  difficulty : Option String
  difficultyText : Option String
  description : Option String
  image : Option String
  rulesUrl : Option String
  summaryUrl : Option String
deriving DecidableEq

/-- The catalog document: a mapping holding the ordered list of games. -/
structure Catalog where
  games : List Game
deriving DecidableEq

/-- The state of the backing `games.yml` file as `load_games_data` sees it:
absent, raising on parse, parsing to `None` (empty file), or parsing to a
catalog document. -/
inductive YamlResult where
  | absent
  | raisesOnParse
  | parsedNone
  | parsed (c : Catalog)

/-- `load_games_data` (add_game.py lines 278-287, manage_games.py lines
35-46): missing file, parse failure, and a `None` parse all yield
`{'games': []}`; a parsed document is returned as is. The function is total:
no state of the backing file raises to the caller. -/
def load_games_data : YamlResult → Catalog
  | .absent => ⟨[]⟩
  | .raisesOnParse => ⟨[]⟩
  | .parsedNone => ⟨[]⟩
  | .parsed c => c

/-- `save_games_data` (manage_games.py lines 48-63, add_game.py lines
289-304), success path: if a file exists at the catalog path, copy it to
`with_suffix(".yml.backup." + timestamp)` first, then overwrite the catalog
path with the new document. The stored content type is abstract (the
serialized YAML text). -/
def save_games_data {α : Type} (fs : String → Option α) (ts : String) (doc : α) :
    Bool × (String → Option α) :=
  match fs games_yml_path with
  | some old =>
    let fs1 := fun q => if q = yml_backup_path ts then some old else fs q
    (true, fun q => if q = games_yml_path then some doc else fs1 q)
  | none => (true, fun q => if q = games_yml_path then some doc else fs q)

/-- The deletion step of `GameManager.delete_game` (manage_games.py line
426): keep every record whose id differs from the target id. -/
def delete_by_id (games : List Game) (target : Option String) : List Game :=
  games.filter (fun g => g.id != target)

/-- ASCII lowercasing of a string (model of `str.lower()` on the data the
scripts compare). -/
def lowerStr (s : String) : String := String.mk (s.data.map Char.toLower)

/-- Whether `pat` starts `text`. -/
def leadsWith : List Char → List Char → Bool
  | [], _ => true
  | _ :: _, [] => false
  | a :: ps, b :: ts => a == b && leadsWith ps ts

/-- Whether `pat` occurs contiguously in `text` (Python `pat in text`). -/
def occursIn : List Char → List Char → Bool
  | pat, [] => pat.isEmpty
  | pat, c :: ts => leadsWith pat (c :: ts) || occursIn pat ts

/-- Python `pat in text` on strings. -/
def strContains (text pat : String) : Bool := occursIn pat.data text.data

/-- The searchable fields of `GameManager.search_games` (manage_games.py
lines 148-154): title, id, description, players, difficultyText, each
defaulting to the empty string. -/
def searchable_fields (g : Game) : List String :=
  [g.title.getD "", g.id.getD "", g.description.getD "",
   g.players.getD "", g.difficultyText.getD ""]

/-- `GameManager.search_games` (manage_games.py lines 135-159): an empty
query returns the whole list; otherwise keep the records one of whose
searchable fields contains the lowercased query. -/
def search_games (games : List Game) (query : String) : List Game :=
  if query = "" then games
  else
    let ql := lowerStr query
    games.filter (fun g => (searchable_fields g).any (fun f => strContains (lowerStr f) ql))

/-- The predicate `search_games` filters by, named for the statements. -/
def search_match (query : String) (g : Game) : Bool :=
  (searchable_fields g).any (fun f => strContains (lowerStr f) (lowerStr query))

/-- The fixed difficulty menu shared by the add wizard and the edit menu:
choice token, stored value, localized label. -/
def difficulty_map : List (String × String × String) :=
  [("1", "beginner", "初心者向け"),
   ("2", "intermediate", "経験者向け"),
   ("3", "expert", "エキスパート向け")]

/-- The three (value, label) pairs of the fixed mapping. -/
def difficulty_pairs : List (String × String) := difficulty_map.map (fun e => e.2)

/-- Look up a menu choice in the difficulty map. -/
def difficultyChoice (choice : String) : Option (String × String) :=
  (difficulty_map.find? (fun e => e.1 == choice)).map (fun e => e.2)

/-- The difficulty step of `add_new_game_with_optimization` (add_game.py
lines 392-398): a valid choice sets `difficulty` and `difficultyText`
together and leaves the loop; an invalid choice re-prompts (`none`). -/
def add_set_difficulty (g : Game) (choice : String) : Option Game :=
  match difficultyChoice choice with
  | some dt => some { g with difficulty := some dt.1, difficultyText := some dt.2 }
  | none => none

/-- The fields offered by the `GameManager.edit_game` menu (manage_games.py
lines 288-298). `difficultyText` is not in the menu. -/
inductive EditField where
  | title | players | time | age | difficulty | description | image | rulesUrl | summaryUrl

/-- One iteration of the `edit_game` field loop (manage_games.py lines
319-359): the difficulty field sets both `difficulty` and `difficultyText`
from the map when the choice is valid and changes nothing otherwise; every
other field is overwritten when the input is non-empty. -/
def edit_step (g : Game) (f : EditField) (input : String) : Game :=
  match f with
  | .difficulty =>
    match difficultyChoice input with
    | some dt => { g with difficulty := some dt.1, difficultyText := some dt.2 }
    | none => g
  | .title => if input = "" then g else { g with title := some input }
  | .players => if input = "" then g else { g with players := some input }
  | .time => if input = "" then g else { g with time := some input }
  | .age => if input = "" then g else { g with age := some input }
  | .description => if input = "" then g else { g with description := some input }
  | .image => if input = "" then g else { g with image := some input }
  | .rulesUrl => if input = "" then g else { g with rulesUrl := some input }
  | .summaryUrl => if input = "" then g else { g with summaryUrl := some input }

/-- The ids present in a catalog (`[game.get('id') for game in games]`). -/
def existing_ids (data : Catalog) : List (Option String) := data.games.map Game.id

/-- The duplicate-id gate of `add_new_game_with_optimization` (add_game.py
lines 369-374): when the chosen id is already used the wizard prints an
error and returns `None`. -/
def add_wizard_id_gate (existing : Catalog) (gid : String) : Option String :=
  if (existing_ids existing).contains (some gid) then none else some gid

/-- `add_new_game_with_optimization` reduced to its id phase: the record is
built only when the duplicate gate passes; the remaining prompted fields are
abstracted as `rest`. -/
def add_new_game_result (existing : Catalog) (gid : String) (rest : Game) : Option Game :=
  match add_wizard_id_gate existing gid with
  | none => none
  | some gid1 => some { rest with id := some gid1 }

/-- The persistence step of `run_with_image_optimization` (add_game.py lines
465-495): when the wizard returns `None` nothing is saved and the stored
catalog is unchanged; otherwise the record is appended and saved. -/
def run_add_persist (stored : Catalog) (wizard : Option Game) : Bool × Catalog :=
  match wizard with
  | none => (false, stored)
  | some g => (true, ⟨stored.games ++ [g]⟩)

end BG

namespace BG

/-! ### Helper lemmas -/

theorem get_image_info_file_size (env : Env) (b : Bytes) (p : String) :
    (get_image_info env b p).file_size = b.length := by
  unfold get_image_info; cases env.probe p <;> rfl

theorem needs_optimization_true_iff (env : Env) (fs : FS) (p : String) (b : Bytes)
    (h : fs p = some b) :
    needs_optimization env fs p = true ↔
      ((get_image_info env b p).file_size > optimizer_settings.max_file_size ∨
       ((get_image_info env b p).width > 0 ∧ (get_image_info env b p).height > 0 ∧
        ((get_image_info env b p).width * 5 > optimizer_settings.width * 6 ∨
         (get_image_info env b p).height * 5 > optimizer_settings.height * 6))) := by
  unfold needs_optimization
  rw [h]
  dsimp only
  split_ifs with h1 h2
  · exact iff_of_true rfl (Or.inl h1)
  · exact iff_of_true rfl (Or.inr h2)
  · exact iff_of_false (by simp) (fun hc => hc.elim h1 h2)

/-- The size-or-dimensions condition stated by the specification: byte size
over 200 KiB, or both probed dimensions positive with one exceeding 120% of
the 400x600 target (that is, width over 480 or height over 720). -/
def over_thresholds (b : Bytes) (info : ImageInfo) : Prop :=
  b.length > 200 * 1024 ∨
    (info.width > 0 ∧ info.height > 0 ∧ (info.width > 480 ∨ info.height > 720))

/-! ### Claim theorems -/

/-- For a file that exists on disk, in an environment where the magick
binary is present, `needs_optimization` returns true exactly when the byte
size exceeds 200 KiB, or when the probed dimensions are positive and the
width exceeds 1.2 times 400 or the height exceeds 1.2 times 600; when the
probe fails in a caught way (probed dimensions fall back to zero) only the
size condition applies. With the binary absent the program raises instead:
see `needs_optimization_binary_absent_raises`. -/
theorem needs_optimization_thresholds (env : Env) (fs : FS) (p : String) (b : Bytes)
    (h : fs p = some b) :
    (needs_optimization env fs p = true ↔
      over_thresholds b (get_image_info env b p)) ∧
    (env.probe p = none →
      (needs_optimization env fs p = true ↔ b.length > 200 * 1024)) := by
  have base := needs_optimization_true_iff env fs p b h
  have hs : (get_image_info env b p).file_size = b.length := get_image_info_file_size env b p
  have hm : optimizer_settings.max_file_size = 204800 := rfl
  have hw400 : optimizer_settings.width = 400 := rfl
  have hh600 : optimizer_settings.height = 600 := rfl
  constructor
  · rw [base]
    unfold over_thresholds
    rw [hs, hm, hw400, hh600]
    constructor
    · rintro (h1 | ⟨hw, hh, hd⟩)
      · exact Or.inl (by omega)
      · exact Or.inr ⟨hw, hh, by omega⟩
    · rintro (h1 | ⟨hw, hh, hd⟩)
      · exact Or.inl (by omega)
      · exact Or.inr ⟨hw, hh, by omega⟩
  · intro hp
    rw [base]
    have hw : get_image_info env b p = ⟨0, 0, b.length⟩ := by
      unfold get_image_info; rw [hp]
    rw [hw, hm, hw400, hh600]
    dsimp only
    constructor
    · rintro (h1 | ⟨hw0, _⟩)
      · omega
      · omega
    · intro h1
      exact Or.inl (by omega)

/-- Claim C2: `load_games_data` is total over every state of the backing
file — absent, raising on parse, parsing to nothing, or well-formed — and
returns the empty catalog in the first three cases and the parsed document
otherwise. -/
theorem load_games_data_total :
    load_games_data .absent = ⟨[]⟩ ∧
    load_games_data .raisesOnParse = ⟨[]⟩ ∧
    load_games_data .parsedNone = ⟨[]⟩ ∧
    ∀ c : Catalog, load_games_data (.parsed c) = c :=
  ⟨rfl, rfl, rfl, fun _ => rfl⟩

/-- Claim C10: for a path that does not exist, `needs_optimization` returns
false, and the result does not depend on the probing environment at all
(the probe is never consulted). -/
theorem needs_optimization_absent (env env2 : Env) (fs : FS) (p : String)
    (h : fs p = none) :
    needs_optimization env fs p = false ∧
    needs_optimization env fs p = needs_optimization env2 fs p := by
  unfold needs_optimization
  rw [h]
  exact ⟨rfl, rfl⟩

/-! ### Concrete instances for witnesses and counterexamples -/

/-- A tiny file system with one three-byte image. -/
def exFS : FS := fun q => if q = "img.jpg" then some [1, 2, 3] else none

/-- An environment whose probe reports 481 x 100 pixels. -/
def exEnvProbe : Env :=
  { magickOk := true, binaryMissing := false, probe := fun _ => some (481, 100),
    transform := .exits 0 none, backupOk := true }

/-- An environment in which ImageMagick is unavailable. -/
def exEnvNoMagick : Env :=
  { magickOk := false, binaryMissing := false, probe := fun _ => none,
    transform := .exits 0 none, backupOk := true }

theorem needs_optimization_thresholds_witness :
    exFS "img.jpg" = some [1, 2, 3] ∧
    ((needs_optimization exEnvProbe exFS "img.jpg" = true ↔
       over_thresholds [1, 2, 3] (get_image_info exEnvProbe [1, 2, 3] "img.jpg")) ∧
     (exEnvProbe.probe "img.jpg" = none →
       (needs_optimization exEnvProbe exFS "img.jpg" = true ↔
         ([1, 2, 3] : Bytes).length > 200 * 1024))) :=
  ⟨rfl, needs_optimization_thresholds exEnvProbe exFS "img.jpg" [1, 2, 3] rfl⟩

theorem needs_optimization_absent_witness :
    exFS "missing.png" = none ∧
    (needs_optimization exEnvProbe exFS "missing.png" = false ∧
     needs_optimization exEnvProbe exFS "missing.png" =
       needs_optimization exEnvNoMagick exFS "missing.png") :=
  ⟨rfl, needs_optimization_absent exEnvProbe exEnvNoMagick exFS "missing.png" rfl⟩

end BG

namespace BG

/-! ### Backup path naming -/

theorem yml_backup_path_eq (ts : String) :
    yml_backup_path ts = "docs/_data/games.yml.backup." ++ ts := by
  unfold yml_backup_path with_suffix
  have h1 : dirPart games_yml_path = "docs/_data/" := rfl
  have h2 : stemOf (baseName games_yml_path) = "games" := rfl
  rw [h1, h2]
  rw [show ("docs/_data/" ++ "games" : String) = "docs/_data/games" from rfl]
  rw [← String.append_assoc]
  rw [show ("docs/_data/games" ++ ".yml.backup." : String) = "docs/_data/games.yml.backup." from rfl]

theorem yml_backup_path_ne (ts : String) : yml_backup_path ts ≠ games_yml_path := by
  intro h
  have hlen := congrArg String.length h
  rw [yml_backup_path_eq, String.length_append] at hlen
  have h28 : ("docs/_data/games.yml.backup." : String).length = 28 := rfl
  have h20 : games_yml_path.length = 20 := rfl
  omega

/-- Claim C4: on the success path of `save_games_data`, when a file already
exists at the catalog path it is copied in full to the sibling path
`games.yml.backup.<timestamp>` while the catalog path receives the new
document; when no file exists at the catalog path, no other path changes
(no backup is created). -/
theorem save_games_data_backup {α : Type} (fs : String → Option α) (ts : String) (doc : α) :
    yml_backup_path ts = "docs/_data/games.yml.backup." ++ ts ∧
    (∀ old, fs games_yml_path = some old →
      (save_games_data fs ts doc).2 (yml_backup_path ts) = some old ∧
      (save_games_data fs ts doc).2 games_yml_path = some doc) ∧
    (fs games_yml_path = none →
      ∀ q, q ≠ games_yml_path → (save_games_data fs ts doc).2 q = fs q) := by
  refine ⟨yml_backup_path_eq ts, ?_, ?_⟩
  · intro old hold
    simp only [save_games_data, hold]
    have hne := yml_backup_path_ne ts
    constructor
    · simp [hne]
    · simp [Ne.symm hne]
  · intro hnone q hq
    simp only [save_games_data, hnone]
    rw [if_neg hq]

/-- Claim C5: when an id occurs in exactly one record of the catalog,
deletion by that id removes exactly that record, and the other records keep
their relative order. -/
theorem delete_by_id_unique (l1 l2 : List Game) (g : Game)
    (h : ∀ g1 ∈ l1 ++ l2, g1.id ≠ g.id) :
    delete_by_id (l1 ++ g :: l2) g.id = l1 ++ l2 := by
  have hl1 : ∀ a ∈ l1, (a.id != g.id) = true := by
    intro a ha
    simpa [bne_iff_ne] using h a (List.mem_append_left _ ha)
  have hl2 : ∀ a ∈ l2, (a.id != g.id) = true := by
    intro a ha
    simpa [bne_iff_ne] using h a (List.mem_append_right _ ha)
  unfold delete_by_id
  rw [List.filter_append, List.filter_cons]
  simp only [bne_self_eq_false, Bool.false_eq_true, if_false]
  rw [List.filter_eq_self.mpr hl1, List.filter_eq_self.mpr hl2]

/-- A sample record used for witnesses. -/
def mkGame (gid : String) : Game :=
  { id := some gid, title := some gid, players := some "2-4人",
    time := some "30-60分", age := some "10歳以上",
    difficulty := some "beginner", difficultyText := some "初心者向け",
    description := some "desc", image := none, rulesUrl := none,
    summaryUrl := none }

/-- A catalog file system with one stored document. -/
def exDocFS : String → Option Nat := fun q => if q = games_yml_path then some 1 else none

/-- A catalog file system with no stored document. -/
def exEmptyDocFS : String → Option Nat := fun _ => none

theorem save_games_data_backup_witness :
    ((save_games_data exDocFS "20240101_120000" 2).2
        (yml_backup_path "20240101_120000") = some 1 ∧
     (save_games_data exDocFS "20240101_120000" 2).2 games_yml_path = some 2) ∧
    (save_games_data exEmptyDocFS "20240101_120000" 2).2 "other.txt" = none :=
  ⟨(save_games_data_backup exDocFS "20240101_120000" 2).2.1 1 rfl,
   ((save_games_data_backup exEmptyDocFS "20240101_120000" 2).2.2 rfl
      "other.txt" (by decide)).trans rfl⟩

theorem delete_by_id_unique_witness :
    (∀ g1 ∈ [mkGame "a"] ++ [mkGame "b"], g1.id ≠ (mkGame "c").id) ∧
    delete_by_id ([mkGame "a"] ++ mkGame "c" :: [mkGame "b"]) (mkGame "c").id =
      [mkGame "a"] ++ [mkGame "b"] :=
  ⟨by decide, delete_by_id_unique [mkGame "a"] [mkGame "b"] (mkGame "c") (by decide)⟩

end BG

namespace BG

/-- In add_game.py, a chosen id equal to an existing id is rejected by the
wizard before persistence: the wizard returns nothing, the run does not
save, and the stored catalog (hence its length) is unchanged. The v1 script
behaves differently: see `add_duplicate_v1_counterexample`. -/
theorem add_duplicate_rejected (stored : Catalog) (gid : String) (rest : Game)
    (h : (existing_ids stored).contains (some gid) = true) :
    add_new_game_result stored gid rest = none ∧
    run_add_persist stored (add_new_game_result stored gid rest) = (false, stored) ∧
    (run_add_persist stored (add_new_game_result stored gid rest)).2.games.length =
      stored.games.length := by
  have hg : add_wizard_id_gate stored gid = none := by
    unfold add_wizard_id_gate
    rw [h]
    simp
  have hr : add_new_game_result stored gid rest = none := by
    unfold add_new_game_result
    rw [hg]
  refine ⟨hr, ?_, ?_⟩ <;> rw [hr]
  · rfl
  · rfl

theorem add_duplicate_rejected_witness :
    (existing_ids ⟨[mkGame "catan"]⟩).contains (some "catan") = true ∧
    (add_new_game_result ⟨[mkGame "catan"]⟩ "catan" (mkGame "catan") = none ∧
     run_add_persist ⟨[mkGame "catan"]⟩
        (add_new_game_result ⟨[mkGame "catan"]⟩ "catan" (mkGame "catan")) =
       (false, ⟨[mkGame "catan"]⟩) ∧
     (run_add_persist ⟨[mkGame "catan"]⟩
        (add_new_game_result ⟨[mkGame "catan"]⟩ "catan" (mkGame "catan"))).2.games.length =
       (⟨[mkGame "catan"]⟩ : Catalog).games.length) :=
  ⟨by decide, add_duplicate_rejected ⟨[mkGame "catan"]⟩ "catan" (mkGame "catan") (by decide)⟩

theorem occursIn_nil_pat (text : List Char) : occursIn [] text = true := by
  cases text <;> simp [occursIn, leadsWith]

theorem search_match_empty (g : Game) : search_match "" g = true := by
  unfold search_match searchable_fields
  simp [strContains, lowerStr, occursIn_nil_pat]

/-- Claim C7: `search_games` returns, in stored order, exactly the records
one of whose lowercased searchable fields (title, id, description, players,
difficultyText) contains the lowercased query; the empty query returns the
full catalog, and a query matching no record returns the empty list. -/
theorem search_games_spec (games : List Game) (q : String) :
    search_games games q = games.filter (search_match q) ∧
    search_games games "" = games ∧
    ((∀ g ∈ games, search_match q g = false) → search_games games q = []) := by
  have hfilter : search_games games q = games.filter (search_match q) := by
    unfold search_games
    by_cases hq : q = ""
    · subst hq
      rw [if_pos rfl]
      exact (List.filter_eq_self.mpr (fun g _ => search_match_empty g)).symm
    · rw [if_neg hq]
      rfl
  refine ⟨hfilter, ?_, ?_⟩
  · unfold search_games
    rw [if_pos rfl]
  · intro h
    rw [hfilter]
    exact List.filter_eq_nil_iff.mpr (fun g hg => by simp [h g hg])

theorem search_games_spec_witness :
    search_games [mkGame "catan"] "zz" = [] :=
  (search_games_spec [mkGame "catan"] "zz").2.2 (by decide)

theorem difficultyChoice_mem (s : String) (dt : String × String)
    (h : difficultyChoice s = some dt) : dt ∈ difficulty_pairs := by
  unfold difficultyChoice at h
  cases hfind : difficulty_map.find? (fun e => e.1 == s) with
  | none => rw [hfind] at h; simp at h
  | some e =>
    rw [hfind] at h
    simp at h
    rw [← h]
    exact List.mem_map_of_mem _ (List.mem_of_find?_eq_some hfind)

/-- Claim C9: every operation that touches a record difficulty — one step of
the edit menu over any of its fields, and the difficulty step of the add
wizard — either leaves both `difficulty` and `difficultyText` unchanged or
sets them together to one of the three (value, label) pairs of the fixed
mapping; no reachable step sets one of the two fields without the other. -/
theorem difficulty_pair_invariant (g : Game) (f : EditField) (input choice : String) :
    (((edit_step g f input).difficulty = g.difficulty ∧
      (edit_step g f input).difficultyText = g.difficultyText) ∨
     (∃ pr ∈ difficulty_pairs,
       (edit_step g f input).difficulty = some pr.1 ∧
       (edit_step g f input).difficultyText = some pr.2)) ∧
    (∀ g1, add_set_difficulty g choice = some g1 →
      ∃ pr ∈ difficulty_pairs,
        g1.difficulty = some pr.1 ∧ g1.difficultyText = some pr.2) := by
  constructor
  · cases f
    case difficulty =>
      unfold edit_step
      cases hc : difficultyChoice input with
      | none => exact Or.inl ⟨rfl, rfl⟩
      | some dt => exact Or.inr ⟨dt, difficultyChoice_mem input dt hc, rfl, rfl⟩
    all_goals exact Or.inl (by unfold edit_step; split_ifs <;> exact ⟨rfl, rfl⟩)
  · intro g1 h
    unfold add_set_difficulty at h
    cases hc : difficultyChoice choice with
    | none => rw [hc] at h; simp at h
    | some dt =>
      rw [hc] at h
      simp at h
      rw [← h]
      exact ⟨dt, difficultyChoice_mem choice dt hc, rfl, rfl⟩

/-- The record produced by the add wizard difficulty step on choice "2". -/
def mkGameIntermediate : Game :=
  { mkGame "x" with difficulty := some "intermediate", difficultyText := some "経験者向け" }

theorem difficulty_pair_invariant_witness :
    ∃ pr ∈ difficulty_pairs,
      mkGameIntermediate.difficulty = some pr.1 ∧
      mkGameIntermediate.difficultyText = some pr.2 :=
  (difficulty_pair_invariant (mkGame "x") EditField.title "t" "2").2 mkGameIntermediate rfl

end BG

namespace BG

/-! ### File-system helper lemmas for `optimize_image` -/

theorem tempPath_ne (p : String) : tempPath p ≠ p := by
  intro h
  have hlen := congrArg String.length h
  unfold tempPath at hlen
  rw [String.length_append] at hlen
  have h5 : (".temp" : String).length = 5 := rfl
  omega

theorem removeFile_self (fs : FS) (q : String) : removeFile fs q q = none := by
  simp [removeFile]

theorem removeFile_ne (fs : FS) (q r : String) (h : r ≠ q) : removeFile fs q r = fs r := by
  simp [removeFile, h]

theorem writeOpt_ne (fs : FS) (q : String) (out : Option Bytes) (r : String) (h : r ≠ q) :
    writeOpt fs q out r = fs r := by
  cases out <;> simp [writeOpt, h]

theorem create_backup_apply_self (env : Env) (fs : FS) (p : String) :
    (create_backup env fs p).2 p = fs p := by
  unfold create_backup
  by_cases hb : env.backupOk
  · simp only [hb, if_true]
    cases hbf : fs (backupFilePath p) with
    | some c => rfl
    | none =>
      cases hp : fs p with
      | some b =>
        show (if p = backupFilePath p then some b else fs p) = some b
        split_ifs with hpe
        · rfl
        · exact hp
      | none => exact hp
  · simp [hb]

theorem create_backup_false_frame (env : Env) (fs : FS) (p : String) (b : Bytes)
    (hp : fs p = some b) (hcb : (create_backup env fs p).1 = false) :
    (create_backup env fs p).2 = fs := by
  unfold create_backup at hcb ⊢
  by_cases hb : env.backupOk
  · simp only [hb, if_true] at hcb ⊢
    cases hbf : fs (backupFilePath p) with
    | some c => rfl
    | none =>
      rw [hbf] at hcb
      rw [hp] at hcb
      simp at hcb
  · simp [hb]

theorem needs_optimization_some (env : Env) (fs : FS) (p : String)
    (h : needs_optimization env fs p = true) : ∃ b, fs p = some b := by
  unfold needs_optimization at h
  cases hp : fs p with
  | none => rw [hp] at h; simp at h
  | some b => exact ⟨b, rfl⟩

/-- Claim C3: whenever `optimize_image` fails — ImageMagick unavailable, the
target file absent, or (the file needing optimization) the transform
invocation raising, timing out, or exiting non-zero — it returns failure,
the bytes at the original path are unchanged, and no temporary output file
remains on disk: the temp path stays absent when it was absent before. -/
theorem optimize_image_failure (env : Env) (fs : FS) (p : String)
    (h : env.magickOk = false ∨ fs p = none ∨
         (needs_optimization env fs p = true ∧ env.transform.failedB = true)) :
    (optimize_image env fs p).1 = false ∧
    (optimize_image env fs p).2 p = fs p ∧
    (fs (tempPath p) = none → (optimize_image env fs p).2 (tempPath p) = none) := by
  rcases h with hm | hfsp | ⟨hneeds, hfail⟩
  · refine ⟨?_, ?_, ?_⟩ <;> simp [optimize_image, hm]
  · by_cases hm : env.magickOk = false
    · refine ⟨?_, ?_, ?_⟩ <;> simp [optimize_image, hm]
    · refine ⟨?_, ?_, ?_⟩ <;> simp [optimize_image, hm, hfsp]
  · obtain ⟨b, hp⟩ := needs_optimization_some env fs p hneeds
    by_cases hm : env.magickOk = false
    · refine ⟨?_, ?_, ?_⟩ <;> simp [optimize_image, hm]
    · by_cases hcb : (create_backup env fs p).1 = false
      · have hframe := create_backup_false_frame env fs p b hp hcb
        have hopt : optimize_image env fs p = (false, (create_backup env fs p).2) := by
          unfold optimize_image
          rw [if_neg hm, hp]
          dsimp only
          rw [if_neg (by simp [hneeds]), if_pos hcb]
        rw [hopt, hframe]
        exact ⟨rfl, rfl, fun hx => hx⟩
      · have hself := create_backup_apply_self env fs p
        have hpne : p ≠ tempPath p := Ne.symm (tempPath_ne p)
        cases ht : env.transform with
        | raises out =>
          have hopt : optimize_image env fs p =
              (false, removeFile (writeOpt (create_backup env fs p).2 (tempPath p) out)
                        (tempPath p)) := by
            unfold optimize_image
            rw [if_neg hm, hp]
            dsimp only
            rw [if_neg (by simp [hneeds]), if_neg hcb, ht]
          rw [hopt]
          refine ⟨rfl, ?_, fun _ => removeFile_self _ _⟩
          show removeFile (writeOpt (create_backup env fs p).2 (tempPath p) out)
              (tempPath p) p = fs p
          rw [removeFile_ne _ _ _ hpne, writeOpt_ne _ _ _ _ hpne, hself]
        | exits code out =>
          have hcode : ¬(code = 0) := by
            rw [ht] at hfail
            simpa [TransformOutcome.failedB] using hfail
          have hopt : optimize_image env fs p =
              (false, removeFile (writeOpt (create_backup env fs p).2 (tempPath p) out)
                        (tempPath p)) := by
            unfold optimize_image
            rw [if_neg hm, hp]
            dsimp only
            rw [if_neg (by simp [hneeds]), if_neg hcb, ht]
            dsimp only
            rw [if_neg (fun hc => hcode hc.1)]
          rw [hopt]
          refine ⟨rfl, ?_, fun _ => removeFile_self _ _⟩
          show removeFile (writeOpt (create_backup env fs p).2 (tempPath p) out)
              (tempPath p) p = fs p
          rw [removeFile_ne _ _ _ hpne, writeOpt_ne _ _ _ _ hpne, hself]

/-- An environment whose probe reports oversize dimensions and whose
transform exits non-zero after writing partial output. -/
def exEnvFailTransform : Env :=
  { magickOk := true, binaryMissing := false, probe := fun _ => some (5000, 5000),
    transform := .exits 1 (some [9]), backupOk := true }

theorem optimize_image_failure_witness :
    (optimize_image exEnvFailTransform exFS "img.jpg").1 = false ∧
    (optimize_image exEnvFailTransform exFS "img.jpg").2 "img.jpg" = exFS "img.jpg" ∧
    (exFS (tempPath "img.jpg") = none →
      (optimize_image exEnvFailTransform exFS "img.jpg").2 (tempPath "img.jpg") = none) :=
  optimize_image_failure exEnvFailTransform exFS "img.jpg"
    (Or.inr (Or.inr ⟨by decide, rfl⟩))

/-- Claim C8 counterexample: with ImageMagick unavailable, `optimize_image`
on an existing asset that does not need optimization returns failure, not
the success the claim states (the tool check precedes the no-op check). -/
theorem optimize_image_noop_counterexample :
    exFS "img.jpg" = some [1, 2, 3] ∧
    needs_optimization exEnvNoMagick exFS "img.jpg" = false ∧
    (optimize_image exEnvNoMagick exFS "img.jpg").1 = false :=
  ⟨rfl, rfl, rfl⟩

/-- Claim C8 (amended): when ImageMagick is available, `optimize_image` on
an existing asset for which `needs_optimization` is false is a no-op
reported as success: it returns true and the file system is entirely
unchanged — the asset bytes are untouched, the transform writes nothing,
and no backup copy is created or modified. -/
theorem optimize_image_noop (env : Env) (fs : FS) (p : String) (b : Bytes)
    (hm : env.magickOk = true) (hp : fs p = some b)
    (hn : needs_optimization env fs p = false) :
    optimize_image env fs p = (true, fs) := by
  unfold optimize_image
  rw [if_neg (by simp [hm]), hp]
  dsimp only
  rw [if_pos hn]

/-- An environment with ImageMagick available and a failing probe. -/
def exEnvMagickNoProbe : Env :=
  { magickOk := true, binaryMissing := false, probe := fun _ => none,
    transform := .exits 0 none, backupOk := true }

theorem optimize_image_noop_witness :
    exEnvMagickNoProbe.magickOk = true ∧
    exFS "img.jpg" = some [1, 2, 3] ∧
    needs_optimization exEnvMagickNoProbe exFS "img.jpg" = false ∧
    optimize_image exEnvMagickNoProbe exFS "img.jpg" = (true, exFS) :=
  ⟨rfl, rfl, rfl,
   optimize_image_noop exEnvMagickNoProbe exFS "img.jpg" [1, 2, 3] rfl rfl rfl⟩

end BG

namespace BG

/-! ### The fallible probe path and the v1 duplicate-id re-prompt -/

theorem needs_optimization_run_agrees (env : Env) (fs : FS) (p : String)
    (h : env.binaryMissing = false) :
    needs_optimization_run env fs p = .ok (needs_optimization env fs p) := by
  unfold needs_optimization_run needs_optimization get_image_info_run get_image_info
  cases hp : fs p with
  | none => rfl
  | some b =>
    rw [h]
    simp only [Bool.false_eq_true, if_false]
    cases env.probe p <;> rfl

/-- An environment in which the magick executable is absent: the version
check of `ensure_imagemagick` catches the raised `FileNotFoundError` and
reports false, while the identify probe raises the same exception uncaught. -/
def exEnvBinaryAbsent : Env :=
  { magickOk := false, binaryMissing := true, probe := fun _ => none,
    transform := .exits 0 none, backupOk := true }

/-- Claim C1 (code bug, evaluated at the failing input): for an existing
3-byte image with the magick binary absent, `needs_optimization` raises an
uncaught `FileNotFoundError` out of `get_image_info` (the except clause at
add_game.py line 65 does not catch it) instead of returning the size-only
verdict — here false — that the claim, the specification (the check "never
fails, only narrows its judgment") and the code's own fallback comment
intend; the size-only degradation is reached only for the caught probe
failures, as the last conjunct shows. -/
theorem needs_optimization_binary_absent_raises :
    exFS "img.jpg" = some [1, 2, 3] ∧
    needs_optimization_run exEnvBinaryAbsent exFS "img.jpg" =
      .error .fileNotFoundError ∧
    needs_optimization_run exEnvMagickNoProbe exFS "img.jpg" = .ok false :=
  ⟨rfl, rfl, rfl⟩

/-- `GameAdder.validate_id` of the v1 script (lines 99-107): lowercase
letters, digits and hyphens only, non-empty, no leading or trailing hyphen,
length at least 2. -/
def validate_id (gid : String) : Bool :=
  gid.data.all (fun c =>
    (decide ('a' ≤ c) && decide (c ≤ 'z')) ||
    (decide ('0' ≤ c) && decide (c ≤ '9')) || c == '-') &&
  !gid.data.isEmpty &&
  gid.data.headD ' ' != '-' &&
  gid.data.getLastD ' ' != '-' &&
  decide (2 ≤ gid.length)

/-- The id phase of `GameAdder.add_new_game` in the v1 script (lines
259-264): when the chosen id duplicates an existing id, the script prints an
error and re-prompts once for a replacement, validated only by
`validate_id` (format), never re-checked against the existing ids; the
wizard then proceeds with whatever id results. -/
def v1_choose_id (existing : Catalog) (gid retry : String) : String :=
  if (existing_ids existing).contains (some gid) then retry else gid

/-- The persistence step of `GameAdder.run_add_game` in the v1 script (lines
362-367): the record built by the wizard — carrying the id chosen by
`v1_choose_id` — is appended to the loaded catalog and saved. -/
def v1_run_add (stored : Catalog) (gid retry : String) (rest : Game) : Catalog :=
  ⟨stored.games ++ [{ rest with id := some (v1_choose_id stored gid retry) }]⟩

/-- Claim C6 counterexample: in the v1 script, with stored catalog
[catan] and the operator choosing id catan and then answering the
format-validated re-prompt with catan again, the add operation persists:
the saved catalog has length 2 and holds two records with id catan — the
duplicate add is not rejected before persistence and the catalog grows. -/
theorem add_duplicate_v1_counterexample :
    (existing_ids ⟨[mkGame "catan"]⟩).contains (some "catan") = true ∧
    validate_id "catan" = true ∧
    (v1_run_add ⟨[mkGame "catan"]⟩ "catan" "catan" (mkGame "catan")).games.length = 2 ∧
    ((v1_run_add ⟨[mkGame "catan"]⟩ "catan" "catan" (mkGame "catan")).games.filter
        (fun g => g.id == some "catan")).length = 2 :=
  ⟨by decide, by decide, rfl, by decide⟩

/-- Claim C6 (amended): in add_game.py, a record whose id equals an existing
id is rejected before persistence — the wizard returns nothing, nothing is
saved, and the catalog length is unchanged; in the v1 script, a duplicate
chosen id only triggers a single re-prompt validated for format, the
replacement id is not re-checked for uniqueness, and the wizard appends and
saves a record carrying the replacement id, growing the catalog by one —
even when that id is itself a duplicate. -/
theorem add_duplicate_gate_behaviors (stored : Catalog) (gid retry : String) (rest : Game)
    (hdup : (existing_ids stored).contains (some gid) = true)
    (hretry : validate_id retry = true) :
    (add_new_game_result stored gid rest = none ∧
     run_add_persist stored (add_new_game_result stored gid rest) = (false, stored) ∧
     (run_add_persist stored (add_new_game_result stored gid rest)).2.games.length =
       stored.games.length) ∧
    (v1_choose_id stored gid retry = retry ∧
     v1_run_add stored gid retry rest =
       ⟨stored.games ++ [{ rest with id := some retry }]⟩ ∧
     (v1_run_add stored gid retry rest).games.length = stored.games.length + 1) := by
  have hc : v1_choose_id stored gid retry = retry := by
    unfold v1_choose_id
    rw [hdup]
    simp
  refine ⟨add_duplicate_rejected stored gid rest hdup, hc, ?_, ?_⟩
  · unfold v1_run_add
    rw [hc]
  · unfold v1_run_add
    simp

theorem add_duplicate_gate_behaviors_witness :
    add_new_game_result ⟨[mkGame "catan"]⟩ "catan" (mkGame "delta") = none ∧
    (v1_run_add ⟨[mkGame "catan"]⟩ "catan" "delta" (mkGame "delta")).games.length =
      (⟨[mkGame "catan"]⟩ : Catalog).games.length + 1 :=
  ⟨(add_duplicate_gate_behaviors ⟨[mkGame "catan"]⟩ "catan" "delta" (mkGame "delta")
      (by decide) (by decide)).1.1,
   (add_duplicate_gate_behaviors ⟨[mkGame "catan"]⟩ "catan" "delta" (mkGame "delta")
      (by decide) (by decide)).2.2.2⟩

end BG
